import Mathlib

/-!
Shallow embedding of the acquisition engine in `scripts/fetch_observations.py`
(candidate pool builder, acquisition pipeline, persistence helpers), together
with theorems settling the specification claims about it.

Conventions of the embedding:
* remote I/O (count query, offset page fetch, sequential page fetch) and the
  random number generator are oracles gathered in a `Remote` structure; a
  failing count query is `none`, and a failing batch fetch is the empty list,
  exactly as `fetch_batch` returns `[]` on any exception;
* the PostgreSQL table `observations` is a list of `Row`s keyed by
  `observation_id`; `ON CONFLICT (observation_id) DO NOTHING` is
  `insertIgnore`;
* a Python exception raised while executing/committing the INSERT is a
  boolean fault flag threaded into `save_observation` (the `except` branch
  rolls back, so the state component is returned unchanged);
* `random.randint(0, n)` is modelled as `rng k % (n + 1)`, which ranges over
  exactly the interval `[0, n]` the library call draws from.
-/

/-- One element of an observation's `identifications` array, with the two
fields `save_observation` reads (`current`, `category`). -/
structure Ident where
  current : Bool
  category : String
deriving Repr, DecidableEq

/-- A candidate observation as returned by the iNaturalist API, restricted to
the fields `fetch_observations.py` reads: `id`, `uri`, `observed_on`,
`user.login`, `user.name`, `location`, `place_guess`, `photos[].url`,
`quality_grade`, `identifications`, `license_code`.  A missing JSON field is
`none` (for `photos`, the empty list). -/
structure ObsData where
  id : Nat
  uri : Option String
  observed_on : Option String
  user_login : Option String
  user_name : Option String
  location : Option String
  place_guess : Option String
  photos : List String
  quality_grade : Option String
  identifications : List Ident
  license_code : Option String
deriving Repr, DecidableEq

/-- Python `str.split(',')` on a character list: splits at every comma and
always returns at least one (possibly empty) piece. -/
def splitCommaAux : List Char → List (List Char)
  | [] => [[]]
  | c :: rest =>
    match splitCommaAux rest with
    | [] => [[]]
    | h :: t => if c = ',' then [] :: h :: t else (c :: h) :: t

/-- Python `str.split(',')`. -/
def splitComma (s : String) : List String :=
  (splitCommaAux s.toList).map (fun cs => String.mk cs)

/-- Latitude value computed at `fetch_observations.py:88`:
`obs_data.get('location', '').split(',')[0] if obs_data.get('location') else None`.
An absent or empty (falsy) location gives NULL; otherwise the substring before
the first comma — the whole string when there is no comma. -/
def latitudeOf (location : Option String) : Option String :=
  match location with
  | none => none
  | some s => if s = "" then none else (splitComma s)[0]?

/-- Longitude value computed at `fetch_observations.py:89`:
`obs_data.get('location', '').split(',')[1] if obs_data.get('location') and ',' in obs_data.get('location', '') else None`. -/
def longitudeOf (location : Option String) : Option String :=
  match location with
  | none => none
  | some s =>
    if s = "" then none
    else if s.toList.contains ',' then (splitComma s)[1]? else none

/-- The `location` column computed at `fetch_observations.py:69-72`:
`location_parts` holds `place_guess` when truthy, and the column is the
join of the parts or NULL when there are none. -/
def locationTextOf (place_guess : Option String) : Option String :=
  match place_guess with
  | none => none
  | some s => if s = "" then none else some s

/-- One row of the `observations` table, with the columns in the INSERT at
`fetch_observations.py:74-98`.  `raw_data` stores the full source document. -/
structure Row where
  observation_id : Nat
  inat_url : Option String
  observed_on : Option String
  observer_login : Option String
  observer_name : Option String
  latitude : Option String
  longitude : Option String
  location : Option String
  image_url : Option String
  image_local_path : String
  quality_grade : Option String
  num_identification_agreements : Nat
  num_identification_disagreements : Nat
  license : Option String
  raw_data : ObsData
deriving Repr, DecidableEq

/-- The tuple of values bound into the INSERT statement
(`fetch_observations.py:82-97`). -/
def rowOf (obs : ObsData) (image_filename : String) : Row :=
  { observation_id := obs.id
    inat_url := obs.uri
    observed_on := obs.observed_on
    observer_login := obs.user_login
    observer_name := obs.user_name
    latitude := latitudeOf obs.location
    longitude := longitudeOf obs.location
    location := locationTextOf obs.place_guess
    image_url := obs.photos[0]?
    image_local_path := "/data/images/" ++ image_filename
    quality_grade := obs.quality_grade
    num_identification_agreements :=
      (obs.identifications.filter (fun i => i.current && i.category = "improving")).length
    num_identification_disagreements :=
      (obs.identifications.filter (fun i => i.current && i.category = "maverick")).length
    license := obs.license_code
    raw_data := obs }

/-- `INSERT ... ON CONFLICT (observation_id) DO NOTHING` on the embedded
table: when a row with the same key exists nothing changes and no new row is
written (second component `false`); otherwise the row is appended. -/
def insertIgnore (db : List Row) (r : Row) : List Row × Bool :=
  if r.observation_id ∈ db.map Row.observation_id then (db, false)
  else (db ++ [r], true)

/-- `save_observation` (`fetch_observations.py:64-105`).  `fault` models a
Python exception raised while executing or committing the INSERT: the
`except` branch rolls the transaction back (state unchanged) and returns
`False`; otherwise the insert-or-ignore runs, the commit succeeds and the
function returns `True` — regardless of whether a new row was written. -/
def save_observation (fault : Bool) (db : List Row) (obs : ObsData)
    (image_filename : String) : List Row × Bool :=
  if fault then (db, false)
  else ((insertIgnore db (rowOf obs image_filename)).1, true)

/-- The remote catalog and the process-local randomness, as oracles.
`count` is the `total_results` of the initial count query
(`fetch_observations.py:117-127`), `none` when that request raises;
`page o` is what `fetch_batch(o, 200)` returns for offset `o`
(`fetch_observations.py:166-184`, `[]` both for an empty result and for an
exception); `seqPage p` is the result of the page-numbered request issued by
`fetch_all_available` for page `p` (`fetch_observations.py:191-205`); and
`rng k` feeds the `k`-th call of `random.randint`. -/
structure Remote where
  count : Option Nat
  page : Nat → List ObsData
  seqPage : Nat → List ObsData
  rng : Nat → Nat

/-- `fetch_batch` (`fetch_observations.py:166-184`): one offset-based batch
request; errors already collapsed to `[]` inside the oracle. -/
def fetch_batch (remote : Remote) (offset : Nat) : List ObsData :=
  remote.page offset

/-- The pool target computed at `fetch_observations.py:113`:
`pool_target = max(target_count * 10, 200)`. -/
def pool_target (target_count : Nat) : Nat :=
  max (target_count * 10) 200

/-- Modelled from the spec: the pool-target formula as §4.2 of the
specification states it, `min(10 × target, 200)` — written only to be
compared against the source's `pool_target` above. -/
def pool_target_spec (target_count : Nat) : Nat :=
  min (target_count * 10) 200

/-- The merge of one batch into the candidate pool
(`fetch_observations.py:159-162`): iterate the batch in order and append an
observation only when its id is neither already pooled nor in the set of
existing ids.  The pool is the dict `candidates` with its insertion order. -/
def mergeBatch (existing_ids : List Nat) : List ObsData → List ObsData → List ObsData
  | pool, [] => pool
  | pool, obs :: rest =>
    if obs.id ∈ pool.map ObsData.id ∨ obs.id ∈ existing_ids then
      mergeBatch existing_ids pool rest
    else
      mergeBatch existing_ids (pool ++ [obs]) rest

/-- The random-offset sampling loop of `fetch_candidates`
(`fetch_observations.py:138-164`).  `fuel` is the number of attempts still
allowed (`max_attempts - attempts`, starting at 20), `attempts` indexes the
randomness.  Returns the final pool together with the list of offsets at
which a batch request was issued, in order. -/
def fetch_candidates_loop (remote : Remote) (existing_ids : List Nat)
    (ptarget max_accessible : Nat) :
    List ObsData → Nat → Nat → List ObsData × List Nat
  | pool, _, 0 => (pool, [])
  | pool, attempts, fuel + 1 =>
    if pool.length < ptarget then
      let max_start := max_accessible - 200
      let offset := remote.rng attempts % (max_start + 1)
      let batch := fetch_batch remote offset
      if batch = [] then (pool, [offset])
      else
        let r := fetch_candidates_loop remote existing_ids ptarget max_accessible
          (mergeBatch existing_ids pool batch) (attempts + 1) fuel
        (r.1, offset :: r.2)
    else (pool, [])

/-- The `while` body of `fetch_all_available` (`fetch_observations.py:186-213`):
keep requesting page `page` while fewer than `total_limit` results are held;
stop on an empty (or failed) page; otherwise extend and move to the next
page.  Each surviving iteration grows `results` by at least one element, so
fuel `total_limit + 1` is never exhausted before the loop's own exit. -/
def fetch_all_available_go (remote : Remote) (total_limit : Nat) :
    List ObsData → Nat → Nat → List ObsData
  | results, _, 0 => results
  | results, page, fuel + 1 =>
    if results.length < total_limit then
      let batch := remote.seqPage page
      if batch = [] then results
      else fetch_all_available_go remote total_limit (results ++ batch) (page + 1) fuel
    else results

/-- `fetch_all_available` (`fetch_observations.py:186-213`): sequential paging
from page 1, with no deduplication and no filtering of the results. -/
def fetch_all_available (remote : Remote) (total_limit : Nat) : List ObsData :=
  fetch_all_available_go remote total_limit [] 1 (total_limit + 1)

/-- `fetch_candidates` (`fetch_observations.py:108-164`).  A failed count
query returns the empty pool (`return []` at line 130); a small corpus
(`total_results <= pool_target`) is fetched exhaustively; otherwise the
random-offset loop runs with `max_attempts = 20` and
`max_accessible = min(total_results, 10000)`.  The second component is the
trace of offsets used by the random-offset loop (empty on the other paths). -/
def fetch_candidates (remote : Remote) (target_count : Nat)
    (existing_ids : List Nat) : List ObsData × List Nat :=
  match remote.count with
  | none => ([], [])
  | some total_results =>
    if total_results ≤ pool_target target_count then
      (fetch_all_available remote total_results, [])
    else
      fetch_candidates_loop remote existing_ids (pool_target target_count)
        (min total_results 10000) [] 0 20

/-- Modelled from the spec: `process_observation` is called by `main`
(`fetch_observations.py:274`) but is defined nowhere in the repository's
sources.  Per §4.3 of the specification it skips a candidate with no asset
reference, downloads the candidate's binary asset (a failure abandons the
candidate), persists the record through the insert-or-ignore store, and
reports success.  `assetOk id` says whether the asset download for `id`
succeeds; `dbFault id` says whether persisting `id` raises. -/
def process_observation (assetOk dbFault : Nat → Bool) (db : List Row)
    (obs : ObsData) : List Row × Bool :=
  match obs.photos with
  | [] => (db, false)
  | _ :: _ =>
    if assetOk obs.id then
      save_observation (dbFault obs.id) db obs (toString obs.id ++ ".jpg")
    else (db, false)

/-- The acquisition loop of `main` (`fetch_observations.py:264-277`): walk
the (already shuffled) candidate list; break once `processed_count` reaches
`target_count`; skip ids already in `existing_ids`; otherwise run
`process_observation`, and on success bump the count and register the id.
The last component counts the `process_observation` calls made. -/
def pipeline_loop (assetOk dbFault : Nat → Bool) (target_count : Nat) :
    List ObsData → Nat → List Nat → List Row → Nat →
    Nat × List Nat × List Row × Nat
  | [], processed, ids, db, calls => (processed, ids, db, calls)
  | obs :: rest, processed, ids, db, calls =>
    if target_count ≤ processed then (processed, ids, db, calls)
    else if obs.id ∈ ids then
      pipeline_loop assetOk dbFault target_count rest processed ids db calls
    else
      let pr := process_observation assetOk dbFault db obs
      if pr.2 then
        pipeline_loop assetOk dbFault target_count rest (processed + 1)
          (ids ++ [obs.id]) pr.1 (calls + 1)
      else
        pipeline_loop assetOk dbFault target_count rest processed ids pr.1
          (calls + 1)

/-- The run-local collaborators of `main` other than the remote: the
`random.shuffle` oracle and the fault model for the spec-modelled
`process_observation`. -/
structure PipelineEnv where
  shuffle : List ObsData → List ObsData
  assetOk : Nat → Bool
  dbFault : Nat → Bool

/-- The body of `main` after a successful database connection
(`fetch_observations.py:251-287`): load the existing ids, build the candidate
pool, shuffle it, run the acquisition loop, and finish normally reporting the
number processed.  Every exception inside the `try` is caught at line 283 and
the function still returns normally, so the embedding never produces
`Except.error`; the `Except` codomain records exactly that. -/
def main_run (remote : Remote) (env : PipelineEnv) (target_count : Nat)
    (existing_ids : List Nat) (db : List Row) :
    Except Unit (Nat × List Nat × List Row) :=
  let candidates := (fetch_candidates remote target_count existing_ids).1
  let shuffled := env.shuffle candidates
  let r := pipeline_loop env.assetOk env.dbFault target_count shuffled 0
    existing_ids db 0
  Except.ok (r.1, r.2.1, r.2.2.1)

/-! Concrete fixtures used by the witnesses and counterexamples below. -/

/-- A candidate with the given id, location string and photo urls; every
other field absent. -/
def mkObs (n : Nat) (loc : Option String) (ph : List String) : ObsData :=
  { id := n, uri := none, observed_on := none, user_login := none
    user_name := none, location := loc, place_guess := none, photos := ph
    quality_grade := none, identifications := [], license_code := none }

/-- A remote whose count query fails. -/
def remoteCountFails : Remote :=
  { count := none, page := fun _ => [], seqPage := fun _ => [], rng := fun _ => 0 }

/-- A degenerate environment: identity shuffle, asset downloads succeed,
no database faults. -/
def envId : PipelineEnv :=
  { shuffle := fun l => l, assetOk := fun _ => true, dbFault := fun _ => false }

/-- A small corpus (2 results) whose single non-empty page repeats one id. -/
def remoteDupSmall : Remote :=
  { count := some 2
    page := fun _ => []
    seqPage := fun p => if p = 1 then [mkObs 7 none ["u"], mkObs 7 none ["u"]] else []
    rng := fun _ => 0 }

/-- A large corpus (1000 results) whose batches are all empty and whose
randomness always yields 950. -/
def remoteLargeEmpty : Remote :=
  { count := some 1000, page := fun _ => [], seqPage := fun _ => [], rng := fun _ => 950 }

/-- A corpus of 201 results (just above a pool target of 200) whose only
batch content is the single candidate with id 7. -/
def remoteOneNew : Remote :=
  { count := some 201
    page := fun _ => [mkObs 7 none ["u"]]
    seqPage := fun _ => []
    rng := fun _ => 0 }

/-- A small corpus of 50 results with empty pages. -/
def remoteSmall50 : Remote :=
  { count := some 50, page := fun _ => [], seqPage := fun _ => [], rng := fun _ => 0 }

/-- The candidate with id 7 used by several concrete instances. -/
def obs7 : ObsData := mkObs 7 none ["u"]

/-- The table row produced by persisting `obs7`. -/
def row7 : Row := rowOf obs7 "7.jpg"

/-! Helper lemmas about the embedded loops. -/

/-- The accepted count of the acquisition loop never exceeds the target,
provided it starts at or below it. -/
theorem pipeline_loop_processed_le (A F : Nat → Bool) (t : Nat) :
    ∀ (l : List ObsData) (p : Nat) (ids : List Nat) (db : List Row) (c : Nat),
      p ≤ t → (pipeline_loop A F t l p ids db c).1 ≤ t := by
  intro l
  induction l with
  | nil => intro p ids db c hp; simpa [pipeline_loop] using hp
  | cons obs rest ih =>
    intro p ids db c hp
    simp only [pipeline_loop]
    split
    · exact hp
    · rename_i hnp
      split
      · exact ih p ids db c hp
      · split
        · exact ih _ _ _ _ (Nat.succ_le_of_lt (Nat.lt_of_not_le hnp))
        · exact ih _ _ _ _ hp

/-- The acquisition loop makes at most one `process_observation` call per
pool element. -/
theorem pipeline_loop_calls_le (A F : Nat → Bool) (t : Nat) :
    ∀ (l : List ObsData) (p : Nat) (ids : List Nat) (db : List Row) (c : Nat),
      (pipeline_loop A F t l p ids db c).2.2.2 ≤ c + l.length := by
  intro l
  induction l with
  | nil => intro p ids db c; simp [pipeline_loop]
  | cons obs rest ih =>
    intro p ids db c
    simp only [pipeline_loop, List.length_cons]
    split
    · exact Nat.le_add_right c _
    · split
      · exact Nat.le_trans (ih _ _ _ _) (by omega)
      · split
        · exact Nat.le_trans (ih _ _ _ _) (by omega)
        · exact Nat.le_trans (ih _ _ _ _) (by omega)

/-- The sampling loop issues at most `fuel` batch requests. -/
theorem fetch_loop_trace_length_le (remote : Remote) (ids : List Nat)
    (pt ma : Nat) :
    ∀ (fuel : Nat) (pool : List ObsData) (a : Nat),
      (fetch_candidates_loop remote ids pt ma pool a fuel).2.length ≤ fuel := by
  intro fuel
  induction fuel with
  | zero => intro pool a; simp [fetch_candidates_loop]
  | succ n ih =>
    intro pool a
    simp only [fetch_candidates_loop]
    split
    · split
      · simp
      · simpa using Nat.succ_le_succ (ih _ _)
    · simp

/-- Once the pool has reached the pool target, the sampling loop issues no
further batch request and returns the pool unchanged. -/
theorem fetch_loop_stop (remote : Remote) (ids : List Nat) (pt ma : Nat)
    (pool : List ObsData) (a fuel : Nat) (h : pt ≤ pool.length) :
    fetch_candidates_loop remote ids pt ma pool a fuel = (pool, []) := by
  cases fuel with
  | zero => simp [fetch_candidates_loop]
  | succ n => simp [fetch_candidates_loop, Nat.not_lt.mpr h]

/-- Every offset the sampling loop issues lies below the clamped ceiling. -/
theorem fetch_loop_offsets_le (remote : Remote) (ids : List Nat)
    (pt ma : Nat) :
    ∀ (fuel : Nat) (pool : List ObsData) (a : Nat) (o : Nat),
      o ∈ (fetch_candidates_loop remote ids pt ma pool a fuel).2 →
      o ≤ ma - 200 := by
  intro fuel
  induction fuel with
  | zero => intro pool a o ho; simp [fetch_candidates_loop] at ho
  | succ n ih =>
    intro pool a o ho
    simp only [fetch_candidates_loop] at ho
    split at ho
    · split at ho
      · simp at ho
        subst ho
        exact Nat.lt_succ_iff.mp (Nat.mod_lt _ (Nat.succ_pos _))
      · simp only [List.mem_cons] at ho
        rcases ho with rfl | ho
        · exact Nat.lt_succ_iff.mp (Nat.mod_lt _ (Nat.succ_pos _))
        · exact ih _ _ _ ho
    · simp at ho

/-- Merging a batch preserves the pool invariant: ids are pairwise distinct
and none of them is among the existing ids. -/
theorem mergeBatch_preserves (ids : List Nat) :
    ∀ (batch pool : List ObsData),
      ((pool.map ObsData.id).Nodup ∧ ∀ o ∈ pool, o.id ∉ ids) →
      (((mergeBatch ids pool batch).map ObsData.id).Nodup ∧
        ∀ o ∈ mergeBatch ids pool batch, o.id ∉ ids) := by
  intro batch
  induction batch with
  | nil => intro pool h; simpa [mergeBatch] using h
  | cons obs rest ih =>
    intro pool h
    simp only [mergeBatch]
    split
    · exact ih pool h
    · rename_i hcond
      push_neg at hcond
      refine ih (pool ++ [obs]) ⟨?_, ?_⟩
      · simp only [List.map_append, List.map_cons, List.map_nil,
          List.nodup_append]
        exact ⟨h.1, List.nodup_singleton _,
          by simpa [List.disjoint_singleton] using hcond.1⟩
      · intro o ho
        rcases List.mem_append.mp ho with h1 | h1
        · exact h.2 o h1
        · rcases List.mem_singleton.mp h1 with rfl
          exact hcond.2

/-- The sampling loop preserves the pool invariant. -/
theorem fetch_loop_preserves (remote : Remote) (ids : List Nat)
    (pt ma : Nat) :
    ∀ (fuel : Nat) (pool : List ObsData) (a : Nat),
      ((pool.map ObsData.id).Nodup ∧ ∀ o ∈ pool, o.id ∉ ids) →
      ((((fetch_candidates_loop remote ids pt ma pool a fuel).1).map
          ObsData.id).Nodup ∧
        ∀ o ∈ (fetch_candidates_loop remote ids pt ma pool a fuel).1,
          o.id ∉ ids) := by
  intro fuel
  induction fuel with
  | zero => intro pool a h; simpa [fetch_candidates_loop] using h
  | succ n ih =>
    intro pool a h
    simp only [fetch_candidates_loop]
    split
    · split
      · simpa using h
      · exact ih _ _ (mergeBatch_preserves ids _ pool h)
    · simpa using h

/-! Claim theorems. -/

/-- Claim C1: for every run, the Acquisition Pipeline processes the
candidates in the shuffled order produced for the pool — skipping ids already
registered, otherwise fetching the asset, persisting the record and
registering the id through `process_observation` — and halts when the
accepted count reaches the target or the pool is exhausted, always finishing
normally and reporting the number actually accepted (never an error). -/
theorem C1_acquisition_pipeline (remote : Remote) (env : PipelineEnv)
    (t p c : Nat) (ids0 ids : List Nat) (db0 db db2 : List Row)
    (obs : ObsData) (rest : List ObsData) :
    (∃ n ids1 db1, main_run remote env t ids0 db0 = Except.ok (n, ids1, db1) ∧
      n ≤ t) ∧
    (p < t → obs.id ∈ ids →
      pipeline_loop env.assetOk env.dbFault t (obs :: rest) p ids db c =
        pipeline_loop env.assetOk env.dbFault t rest p ids db c) ∧
    (p < t → obs.id ∉ ids →
      process_observation env.assetOk env.dbFault db obs = (db2, true) →
      pipeline_loop env.assetOk env.dbFault t (obs :: rest) p ids db c =
        pipeline_loop env.assetOk env.dbFault t rest (p + 1) (ids ++ [obs.id])
          db2 (c + 1)) ∧
    (p < t → obs.id ∉ ids →
      process_observation env.assetOk env.dbFault db obs = (db2, false) →
      pipeline_loop env.assetOk env.dbFault t (obs :: rest) p ids db c =
        pipeline_loop env.assetOk env.dbFault t rest p ids db2 (c + 1)) ∧
    (t ≤ p →
      pipeline_loop env.assetOk env.dbFault t (obs :: rest) p ids db c =
        (p, ids, db, c)) ∧
    (pipeline_loop env.assetOk env.dbFault t [] p ids db c =
      (p, ids, db, c)) := by
  refine ⟨?_, ?_, ?_, ?_, ?_, ?_⟩
  · refine ⟨_, _, _, rfl, ?_⟩
    exact pipeline_loop_processed_le env.assetOk env.dbFault t _ 0 ids0 db0 0
      (Nat.zero_le t)
  · intro hp hm
    simp [pipeline_loop, Nat.not_le.mpr hp, hm]
  · intro hp hm hpr
    simp [pipeline_loop, Nat.not_le.mpr hp, hm, hpr]
  · intro hp hm hpr
    simp [pipeline_loop, Nat.not_le.mpr hp, hm, hpr]
  · intro hp
    simp [pipeline_loop, hp]
  · rfl

/-- Witness for C1: the halting equation of the pipeline on an exhausted
pool, at concrete inputs. -/
theorem C1_acquisition_pipeline_witness :
    pipeline_loop envId.assetOk envId.dbFault 1 [] 0 [7] [] 0 =
      (0, [7], [], 0) :=
  (C1_acquisition_pipeline remoteCountFails envId 1 0 0 [] [7] [] [] []
    obs7 []).2.2.2.2.2

/-- Claim C2 fails on the code: the pool target is `max(10 × target, 200)`,
not the `min(10 × target, 200)` the claim states; at target 1 the code uses
200 while the claim demands 10. -/
theorem C2_pool_target_counterexample :
    pool_target 1 = 200 ∧ pool_target_spec 1 = 10 ∧
    pool_target 1 ≠ pool_target_spec 1 := by decide

/-- Claim C2 amended: the pool target equals `max(10 × target, 200)`, and it
is the value used both as the threshold at or below which `fetch_candidates`
switches to exhaustive sequential paging and as the size bound handed to the
random-offset sampling loop. -/
theorem C2_pool_target_amended (t total : Nat) (remote : Remote)
    (ids : List Nat) (h : remote.count = some total) :
    pool_target t = max (t * 10) 200 ∧
    (total ≤ pool_target t →
      fetch_candidates remote t ids = (fetch_all_available remote total, [])) ∧
    (pool_target t < total →
      fetch_candidates remote t ids =
        fetch_candidates_loop remote ids (pool_target t) (min total 10000)
          [] 0 20) := by
  refine ⟨rfl, ?_, ?_⟩
  · intro h2
    simp [fetch_candidates, h, h2]
  · intro h2
    simp [fetch_candidates, h, Nat.not_le.mpr h2]

/-- Witness for the amended C2 at a small corpus. -/
theorem C2_pool_target_amended_witness :
    pool_target 1 = max (1 * 10) 200 ∧
    (50 ≤ pool_target 1 →
      fetch_candidates remoteSmall50 1 [] =
        (fetch_all_available remoteSmall50 50, [])) ∧
    (pool_target 1 < 50 →
      fetch_candidates remoteSmall50 1 [] =
        fetch_candidates_loop remoteSmall50 [] (pool_target 1)
          (min 50 10000) [] 0 20) :=
  C2_pool_target_amended 1 50 remoteSmall50 [] rfl

/-- Claim C3 fails on the code: when the count query fails, `fetch_candidates`
returns an empty pool and `main` proceeds to a normal completion reporting
zero accepted — `Except.ok`, not a hard failure. -/
theorem C3_count_failure_counterexample :
    (fetch_candidates remoteCountFails 10 []).1 = [] ∧
    main_run remoteCountFails envId 10 [] [] = Except.ok (0, [], []) :=
  ⟨rfl, rfl⟩

/-- Claim C3 amended: if the initial count query fails, the Builder produces
an empty pool (no partial pool), and the run proceeds normally, reporting
zero accepted with the registry and store untouched, rather than surfacing a
hard failure. -/
theorem C3_count_failure_amended (remote : Remote) (env : PipelineEnv)
    (t : Nat) (ids : List Nat) (db : List Row)
    (h : remote.count = none)
    (hsh : ∀ l, (env.shuffle l).Perm l) :
    (fetch_candidates remote t ids).1 = [] ∧
    main_run remote env t ids db = Except.ok (0, ids, db) := by
  have hc : fetch_candidates remote t ids = ([], []) := by
    simp [fetch_candidates, h]
  have hs : env.shuffle [] = [] := List.Perm.eq_nil (hsh [])
  refine ⟨by simp [hc], ?_⟩
  simp [main_run, hc, hs, pipeline_loop]

/-- Witness for the amended C3, at a remote whose count query fails. -/
theorem C3_count_failure_amended_witness :
    (fetch_candidates remoteCountFails 3 [5]).1 = [] ∧
    main_run remoteCountFails envId 3 [5] [] = Except.ok (0, [5], []) :=
  C3_count_failure_amended remoteCountFails envId 3 [5] [] rfl
    (fun l => List.Perm.refl l)

/-- Claim C4 fails on the code: the acquisition loop has no attempt budget.
With target 1 and a pool of four candidates whose asset downloads all fail,
the loop makes 4 attempts, exceeding the claimed `3 × target = 3` budget
instead of stopping there. -/
theorem C4_attempt_budget_counterexample :
    (pipeline_loop (fun _ => false) (fun _ => false) 1
        [mkObs 1 none ["u"], mkObs 2 none ["u"], mkObs 3 none ["u"],
          mkObs 4 none ["u"]] 0 [] [] 0).2.2.2 = 4 ∧
    3 * 1 < 4 := by decide

/-- Claim C4 amended: the number accepted never exceeds the target, but the
pipeline enforces no attempt budget — the only bound on attempts is the pool
itself, one `process_observation` call per not-already-known candidate. -/
theorem C4_accepted_le_target_amended (A F : Nat → Bool) (t : Nat)
    (cands : List ObsData) (ids : List Nat) (db : List Row) :
    (pipeline_loop A F t cands 0 ids db 0).1 ≤ t ∧
    (pipeline_loop A F t cands 0 ids db 0).2.2.2 ≤ cands.length := by
  refine ⟨pipeline_loop_processed_le A F t cands 0 ids db 0 (Nat.zero_le t), ?_⟩
  simpa using pipeline_loop_calls_le A F t cands 0 ids db 0

/-- Claim C5 fails on the code: the exhaustive sequential-paging path
(`fetch_all_available`) neither deduplicates nor excludes registered ids —
with a registry containing id 7 and a small corpus whose page repeats id 7,
the returned pool lists id 7 twice. -/
theorem C5_pool_dedup_counterexample :
    ((fetch_candidates remoteDupSmall 0 [7]).1.map ObsData.id = [7, 7]) ∧
    ¬ (((fetch_candidates remoteDupSmall 0 [7]).1.map ObsData.id).Nodup) ∧
    (∃ o ∈ (fetch_candidates remoteDupSmall 0 [7]).1, o.id ∈ [7]) := by decide

/-- Claim C5 amended: pools built by the random-offset sampling path contain
each identifier at most once and contain no identifier that was already among
the existing ids; the exhaustive sequential path gives no such guarantee. -/
theorem C5_random_pool_dedup_amended (remote : Remote) (t total : Nat)
    (ids : List Nat) (h : remote.count = some total)
    (h2 : pool_target t < total) :
    (((fetch_candidates remote t ids).1).map ObsData.id).Nodup ∧
    (∀ o ∈ (fetch_candidates remote t ids).1, o.id ∉ ids) := by
  have hc : fetch_candidates remote t ids =
      fetch_candidates_loop remote ids (pool_target t) (min total 10000)
        [] 0 20 := by
    simp [fetch_candidates, h, Nat.not_le.mpr h2]
  rw [hc]
  exact fetch_loop_preserves remote ids (pool_target t) (min total 10000)
    20 [] 0 (by simp)

/-- Witness for the amended C5 on a corpus just above the pool target. -/
theorem C5_random_pool_dedup_amended_witness :
    (((fetch_candidates remoteOneNew 0 []).1).map ObsData.id).Nodup ∧
    (∀ o ∈ (fetch_candidates remoteOneNew 0 []).1, o.id ∉ ([] : List Nat)) :=
  C5_random_pool_dedup_amended remoteOneNew 0 201 [] rfl (by decide)

/-- Claim C6 fails on the code: inserting a record whose id already exists
raises no error and leaves the table unchanged, but `save_observation` still
returns `True` — the return value is not "true iff a new row was written". -/
theorem C6_insert_result_counterexample :
    save_observation false [row7] obs7 "7.jpg" = ([row7], true) ∧
    (insertIgnore [row7] (rowOf obs7 "7.jpg")).2 = false := by decide

/-- Claim C6 amended: on a conflicting id the insert raises no error, leaves
the table unchanged and writes no new row, yet `save_observation` returns
`True`; it returns `True` whenever the statement executes and the commit
succeeds, and `False` only when an exception occurs. -/
theorem C6_insert_result_amended (db : List Row) (obs : ObsData) (f : String)
    (h : (rowOf obs f).observation_id ∈ db.map Row.observation_id) :
    save_observation false db obs f = (db, true) ∧
    (insertIgnore db (rowOf obs f)).2 = false ∧
    (∀ fault : Bool, (save_observation fault db obs f).2 = true →
      fault = false) := by
  refine ⟨by simp [save_observation, insertIgnore, h], ?_, ?_⟩
  · simp [insertIgnore, h]
  · intro fault hf
    cases fault with
    | false => rfl
    | true => simp [save_observation] at hf

/-- Witness for the amended C6 at a one-row table holding the same id. -/
theorem C6_insert_result_amended_witness :
    save_observation false [row7] obs7 "7.jpg" = ([row7], true) ∧
    (insertIgnore [row7] (rowOf obs7 "7.jpg")).2 = false ∧
    (∀ fault : Bool, (save_observation fault [row7] obs7 "7.jpg").2 = true →
      fault = false) :=
  C6_insert_result_amended [row7] obs7 "7.jpg" (by decide)

/-- Claim C7 describes the intended invariant; the code violates it: for the
non-empty comma-free location string "35.5" the persisted latitude is the
whole string (present, not absent) while the longitude is absent. -/
theorem C7_coordinates_code_bug :
    latitudeOf (some "35.5") = some "35.5" ∧
    longitudeOf (some "35.5") = none ∧
    (rowOf (mkObs 42 (some "35.5") []) "x.jpg").latitude = some "35.5" ∧
    (rowOf (mkObs 42 (some "35.5") []) "x.jpg").longitude = none := by decide

/-- Claim C8: on the random-offset sampling path (total above the pool
target), every offset issued to a batch fetch lies within
`[0, min(total, 10000) − 200]`. -/
theorem C8_offsets_clamped (remote : Remote) (t total : Nat)
    (ids : List Nat) (o : Nat) (h : remote.count = some total)
    (h2 : pool_target t < total)
    (ho : o ∈ (fetch_candidates remote t ids).2) :
    o ≤ min total 10000 - 200 := by
  have hc : fetch_candidates remote t ids =
      fetch_candidates_loop remote ids (pool_target t) (min total 10000)
        [] 0 20 := by
    simp [fetch_candidates, h, Nat.not_le.mpr h2]
  rw [hc] at ho
  exact fetch_loop_offsets_le remote ids (pool_target t) (min total 10000)
    20 [] 0 o ho

/-- Witness for C8: the one offset issued against a 1000-result corpus with
rng output 950 is 149, within the clamped interval. -/
theorem C8_offsets_clamped_witness : 149 ≤ min 1000 10000 - 200 :=
  C8_offsets_clamped remoteLargeEmpty 0 1000 [] 149 rfl (by decide)
    (by decide)

/-- Claim C9: on the random-offset sampling path the Builder terminates (it
is a total function of its 20-step fuel) issuing at most 20 batch fetches,
and once the pool has reached the pool target it issues none at all,
returning the pool unchanged. -/
theorem C9_sampling_bounded (remote : Remote) (t total : Nat)
    (ids : List Nat) (h : remote.count = some total)
    (h2 : pool_target t < total) :
    (fetch_candidates remote t ids).2.length ≤ 20 ∧
    (∀ (pool : List ObsData) (attempts fuel : Nat),
      pool_target t ≤ pool.length →
      fetch_candidates_loop remote ids (pool_target t) (min total 10000)
        pool attempts fuel = (pool, [])) := by
  have hc : fetch_candidates remote t ids =
      fetch_candidates_loop remote ids (pool_target t) (min total 10000)
        [] 0 20 := by
    simp [fetch_candidates, h, Nat.not_le.mpr h2]
  refine ⟨?_, ?_⟩
  · rw [hc]
    exact fetch_loop_trace_length_le remote ids (pool_target t)
      (min total 10000) 20 [] 0
  · intro pool attempts fuel hp
    exact fetch_loop_stop remote ids (pool_target t) (min total 10000)
      pool attempts fuel hp

/-- Witness for C9 on a corpus just above the pool target. -/
theorem C9_sampling_bounded_witness :
    (fetch_candidates remoteOneNew 0 []).2.length ≤ 20 :=
  (C9_sampling_bounded remoteOneNew 0 201 [] rfl (by decide)).1

/-- Claim C10: when an exception occurs while inserting, `save_observation`
rolls back — the table is returned unchanged — and returns `False` without
propagating (the embedding is a total function); it returns `True` exactly
when no exception occurred, i.e. only after a successful commit. -/
theorem C10_save_rollback (fault : Bool) (db : List Row) (obs : ObsData)
    (f : String) :
    (fault = true → save_observation fault db obs f = (db, false)) ∧
    ((save_observation fault db obs f).2 = true → fault = false) ∧
    (fault = false → (save_observation fault db obs f).2 = true) := by
  cases fault with
  | true => exact ⟨fun _ => by simp [save_observation], fun hf => by
      simp [save_observation] at hf, fun hf => by simp at hf⟩
  | false => exact ⟨fun hf => by simp at hf, fun _ => rfl, fun _ => by
      simp [save_observation]⟩

/-- Witness for C10: a faulting insert at a concrete record leaves the empty
table unchanged and reports failure. -/
theorem C10_save_rollback_witness :
    save_observation true [] obs7 "7.jpg" = ([], false) :=
  (C10_save_rollback true [] obs7 "7.jpg").1 rfl
